import Mathlib

/-!
Shallow embedding of `src/opencole/inference/langchain_helper.py`.

The module builds few-shot chat prompts for a language model:
* `RandomExampleSelector` — a selector drawing a fresh uniform sample
  without replacement on each call (`random.sample`);
* `initialize_embeddings` — an embedding provider factory with an optional
  on-disk cache (creates the cache path's parent directory chain);
* `setup_model` — dispatch over three optional model identifiers;
* `setup_examples_or_its_selector` — strategy dispatch
  ("similarity" / "random" / "fixed");
* `setup_prompt` — assembly of the chat prompt template
  (system message, optional few-shot block, final human instruction).

Modelling conventions:
* Python's global `random` generator is an explicit stream `g : Nat → Nat`
  of raw random numbers; `random.sample` is `randomSample`, a selection
  procedure driven by that stream which fails (ValueError) exactly when the
  requested size is negative or exceeds the population.
* Python exceptions are `Except Err`; `Err` distinguishes assertion errors,
  `NotImplementedError`, `ValueError` and filesystem errors.
* Filesystem paths are lists of components; the filesystem is the list of
  existing directories, with `[]` standing for the always-existing root.
* External side effects (building the HuggingFace embedder, running the
  embedding pass of the vector store, creating directories) are recorded in
  an event log carried by a `World` value that every effectful function
  threads through; an exception does not roll events back, so a function
  returns `World × Except Err _`.
-/

/-- Exceptions raised by the module. -/
inductive Err where
  | assertionError (msg : String)
  | notImplementedError (msg : String)
  | valueError (msg : String)
  | fileExistsError (msg : String)
  | fileNotFoundError (msg : String)
  deriving Repr, DecidableEq

/-- Observable external side effects of the module. -/
inductive Event where
  | buildEmbedder
  | mkdirParents (path : List String)
  | computeEmbeddings (numExamples : Nat)
  deriving Repr, DecidableEq

/-- A directory exists if it is the root `[]` or is recorded in the
filesystem. -/
def dirExists (fs : List (List String)) (p : List String) : Bool :=
  p.isEmpty || fs.contains p

/-- World state threaded through effectful functions: the set of existing
directories and the log of external effects. -/
structure World where
  fs : List (List String)
  events : List Event
  deriving Repr, DecidableEq

/-- `Path.mkdir(parents=..., exist_ok=...)`. With `exist_ok=False` an
existing directory raises `FileExistsError`; with `parents=True` all missing
ancestors are created; with `parents=False` a missing parent raises
`FileNotFoundError`. -/
def mkdir (fs : List (List String)) (p : List String)
    (parents exist_ok : Bool) : Except Err (List (List String)) :=
  if dirExists fs p then
    if exist_ok then .ok fs
    else .error (.fileExistsError "File exists")
  else if parents then
    .ok (p.inits.filter (fun q => !q.isEmpty) ++ fs)
  else if dirExists fs p.dropLast then .ok (p :: fs)
  else .error (.fileNotFoundError "No such file or directory")

/-- `random.sample` draws one element at a time: the raw random number
`g step` is reduced modulo the remaining population size, the element at
that index is taken and removed from the pool. -/
def sampleAux (g : Nat → Nat) (step : Nat) (pool : List α) (k : Nat) :
    List α :=
  match k, pool with
  | 0, _ => []
  | _ + 1, [] => []
  | j + 1, x :: xs =>
    let pool' := x :: xs
    let i : Fin pool'.length :=
      ⟨g step % pool'.length, Nat.mod_lt _ (Nat.succ_pos _)⟩
    pool'.get i :: sampleAux g (step + 1) (pool'.eraseIdx i.val) j

/-- `random.sample(population, k)`: a uniform sample of size `k` without
replacement, raising `ValueError` when `k` is negative or exceeds the
population size. -/
def randomSample (g : Nat → Nat) (population : List α) (k : Int) :
    Except Err (List α) :=
  if 0 ≤ k ∧ k.toNat ≤ population.length then
    .ok (sampleAux g 0 population k.toNat)
  else
    .error (.valueError "Sample larger than population or is negative")

/-- `class RandomExampleSelector(BaseExampleSelector)`: holds the full
example list and the sample size `k`. -/
structure RandomExampleSelector (α : Type) where
  examples : List α
  k : Int
  deriving Repr, DecidableEq

/-- `RandomExampleSelector.add_example`: appends one example. -/
def RandomExampleSelector.add_example (s : RandomExampleSelector α)
    (example_ : α) : RandomExampleSelector α :=
  { s with examples := s.examples ++ [example_] }

/-- `RandomExampleSelector.select_examples(self, *args, **kwargs)`: the
query arguments (`args`, modelled as a list of strings) are accepted and
ignored; the body is `random.sample(population=self.examples, k=self.k)`. -/
def RandomExampleSelector.select_examples (s : RandomExampleSelector α)
    (g : Nat → Nat) (args : List String) : Except Err (List α) :=
  randomSample g s.examples s.k

/-- Handle returned by `initialize_embeddings`: either the bare
`HuggingFaceEmbeddings` embedder or a `CacheBackedEmbeddings` wrapper over
a `LocalFileStore`. -/
inductive EmbHandle where
  | direct
  | cached (namespace_ : String) (storePath : List String)
  deriving Repr, DecidableEq

/-- `initialize_embeddings(embeddings_cache_name)`: builds the embedder
(recorded as `Event.buildEmbedder`), then, when a cache name is given,
ensures the parent directory chain of the cache path exists and wraps the
embedder in a file-backed cache under namespace `"hfemb_default"`. -/
def initialize_embeddings (w : World)
    (embeddings_cache_name : Option (List String)) :
    World × Except Err EmbHandle :=
  let w := { w with events := w.events ++ [Event.buildEmbedder] }
  match embeddings_cache_name with
  | none => (w, .ok .direct)
  | some path =>
    if dirExists w.fs path then
      (w, .ok (.cached "hfemb_default" path))
    else if dirExists w.fs path.dropLast then
      (w, .ok (.cached "hfemb_default" path))
    else
      match mkdir w.fs path.dropLast true true with
      | .ok fs' =>
        ({ fs := fs',
           events := w.events ++ [Event.mkdirParents path.dropLast] },
         .ok (.cached "hfemb_default" path))
      | .error e => (w, .error e)

/-- Language-model handle returned by `setup_model`, one constructor per
branch, carrying the parameters the source passes to each SDK wrapper. -/
inductive ModelHandle where
  | huggingFacePipeline (model_id : String) (max_new_tokens : Nat)
  | huggingFaceHub (repo_id : String) (temperature : Nat) (max_length : Nat)
  | azureChatOpenAI (deployment_name : String) (model_name : String)
      (openai_api_version : Option String)
  deriving Repr, DecidableEq

/-- `setup_model(model_id, repo_id, azure_openai_model_name)`: first
non-null argument wins, in this order; all null raises
`NotImplementedError("No model is specified.")`. `env_api_version` is the
value of the `AZURE_OPENAI_API_VERSION` environment variable. -/
def setup_model (model_id repo_id azure_openai_model_name : Option String)
    (env_api_version : Option String) : Except Err ModelHandle :=
  match model_id with
  | some mid => .ok (.huggingFacePipeline mid 64)
  | none =>
    match repo_id with
    | some rid => .ok (.huggingFaceHub rid 0 64)
    | none =>
      match azure_openai_model_name with
      | some name => .ok (.azureChatOpenAI name name env_api_version)
      | none => .error (.notImplementedError "No model is specified.")

/-- The dict `{key: getattr(e, key) for key in ["intention", "detail"]}`
built from an `Example` inside `setup_prompt`. -/
structure ExampleDict where
  intention : String
  detail : Option String
  deriving Repr, DecidableEq

/-- `Example` named tuple. -/
structure Example where
  intention : String
  detail : Option String := none
  id : Option String := none
  deriving Repr, DecidableEq

/-- Message roles of a chat template. -/
inductive Role where
  | system
  | human
  | ai
  deriving Repr, DecidableEq

/-- The inner `example_prompt` chat template of the few-shot block: a list
of role-tagged message templates plus declared input variables. -/
structure ExamplePromptTemplate where
  messages : List (Role × String)
  input_variables : List String
  deriving Repr, DecidableEq

/-- Selector object stored inside a few-shot block: either the random
selector, or the similarity selector built by
`SemanticSimilarityExampleSelector.from_examples` (which indexed the
examples with the given embedding handle). -/
inductive ExampleSelectorObj where
  | randomSel (s : RandomExampleSelector ExampleDict)
  | similaritySel (examples : List ExampleDict) (k : Int) (emb : EmbHandle)
      (input_keys : List String)
  deriving Repr, DecidableEq

/-- Result of `setup_examples_or_its_selector`: the kwargs dict holds
either an `example_selector` or a static `examples` list. -/
inductive ExamplesOrSelector where
  | selector (sel : ExampleSelectorObj)
  | fixedExamples (examples : List ExampleDict)
  deriving Repr, DecidableEq

/-- `FewShotChatMessagePromptTemplate(**template_kwargs)`. -/
structure FewShotChatMessagePromptTemplate where
  example_prompt : ExamplePromptTemplate
  content : ExamplesOrSelector
  deriving Repr, DecidableEq

/-- One slot of the outer chat prompt template. -/
inductive ChatMessageItem where
  | systemTemplate (template : String)
  | humanTemplate (template : String)
  | aiTemplate (template : String)
  | fewShot (block : FewShotChatMessagePromptTemplate)
  deriving Repr, DecidableEq

/-- `ChatPromptTemplate(messages=..., input_variables=...,
partial_variables=...)`. -/
structure ChatPromptTemplate where
  messages : List ChatMessageItem
  input_variables : List String
  partial_variables : List (String × String) := []
  deriving Repr, DecidableEq

/-- `SUFFIX` constant. -/
def SUFFIX : String :=
  "Make a detailed plan to for a graphic design for the following request: '{intention}'."

/-- `CHAT_SYSTEM_MESSAGE` constant. -/
def CHAT_SYSTEM_MESSAGE : String :=
  "You are an helpful AI Assistant. {format_instructions}"

/-- `setup_examples_or_its_selector(examples, few_shot_by, k,
embeddings_cache_name)`: the strategy dispatch. "similarity" asserts a
cache name is present, then builds the embedding provider and the
similarity selector (the external embedding pass over all examples is
recorded as an event); "random" wraps the examples in a
`RandomExampleSelector`; "fixed" samples `k` examples once, now; any other
strategy raises `NotImplementedError`. -/
def setup_examples_or_its_selector (w : World)
    (examples : List ExampleDict) (few_shot_by : String) (k : Int)
    (embeddings_cache_name : Option (List String)) (g : Nat → Nat) :
    World × Except Err ExamplesOrSelector :=
  if few_shot_by = "similarity" then
    match embeddings_cache_name with
    | none =>
      (w, .error (.assertionError
        "embeddings_cache_name is required for retrieval based on sentence similarity between the extracted embeddings."))
    | some cache =>
      match initialize_embeddings w (some cache) with
      | (w', .error e) => (w', .error e)
      | (w', .ok emb) =>
        ({ w' with
            events := w'.events ++ [Event.computeEmbeddings examples.length] },
         .ok (.selector
           (.similaritySel examples k emb ["intention"])))
  else if few_shot_by = "random" then
    (w, .ok (.selector (.randomSel ⟨examples, k⟩)))
  else if few_shot_by = "fixed" then
    match randomSample g examples k with
    | .ok sampled => (w, .ok (.fixedExamples sampled))
    | .error e => (w, .error e)
  else
    (w, .error (.notImplementedError ""))

/-- The fixed inner `example_prompt` template built in `setup_prompt`: a
human turn templated by `SUFFIX` followed by an AI turn rendering
`{detail}`. -/
def examplePrompt : ExamplePromptTemplate :=
  { messages := [(Role.human, SUFFIX), (Role.ai, "{detail}")],
    input_variables := ["intention", "detail"] }

/-- `setup_prompt(examples, format_instructions, few_shot_by, k,
embeddings_cache_name)`: starts from the system message; when `k > 0`
asserts the example list is non-empty, converts examples to dicts, runs the
strategy dispatch and appends the few-shot block; always ends with the
final human instruction; declares input variable `intention` and pre-binds
`format_instructions`. -/
def setup_prompt (w : World) (examples : List Example)
    (format_instructions : String) (few_shot_by : String := "random")
    (k : Int := 5) (embeddings_cache_name : Option (List String) := none)
    (g : Nat → Nat := fun _ => 0) :
    World × Except Err ChatPromptTemplate :=
  let messages : List ChatMessageItem :=
    [ChatMessageItem.systemTemplate CHAT_SYSTEM_MESSAGE]
  if k > 0 then
    if examples.length > 0 then
      let exDicts : List ExampleDict :=
        examples.map (fun e => ⟨e.intention, e.detail⟩)
      match setup_examples_or_its_selector w exDicts few_shot_by k
          embeddings_cache_name g with
      | (w', .error e) => (w', .error e)
      | (w', .ok content) =>
        (w', .ok
          { messages := messages ++
              [ChatMessageItem.fewShot
                 { example_prompt := examplePrompt, content := content },
               ChatMessageItem.humanTemplate SUFFIX],
            input_variables := ["intention"],
            partial_variables := [("format_instructions", format_instructions)] })
    else
      (w, .error (.assertionError "len(examples) > 0"))
  else
    (w, .ok
      { messages := messages ++ [ChatMessageItem.humanTemplate SUFFIX],
        input_variables := ["intention"],
        partial_variables := [("format_instructions", format_instructions)] })

/-- Removing the element at a valid index and putting it back in front is a
permutation of the original list. -/
theorem perm_get_cons_eraseIdx (l : List α) (i : Nat) (h : i < l.length) :
    l.Perm (l.get ⟨i, h⟩ :: l.eraseIdx i) := by
  induction l generalizing i with
  | nil => simp at h
  | cons a t ih =>
    cases i with
    | zero => simp
    | succ j =>
      have hj : j < t.length := Nat.lt_of_succ_lt_succ h
      exact ((ih j hj).cons a).trans (List.Perm.swap _ _ _)

/-- The drawn sample is a permutation of a sublist of the pool: it is drawn
without replacement. -/
theorem sampleAux_subperm (g : Nat → Nat) (k : Nat) :
    ∀ (pool : List α) (step : Nat),
      List.Subperm (sampleAux g step pool k) pool := by
  induction k with
  | zero => intro pool step; exact List.nil_subperm
  | succ j ih =>
    intro pool step
    cases pool with
    | nil => exact List.nil_subperm
    | cons x xs =>
      rw [sampleAux]
      have hi : g step % (x :: xs).length < (x :: xs).length :=
        Nat.mod_lt _ (Nat.succ_pos _)
      have h1 :=
        (List.subperm_cons
            ((x :: xs).get ⟨g step % (x :: xs).length, hi⟩)).mpr
          (ih ((x :: xs).eraseIdx (g step % (x :: xs).length)) (step + 1))
      exact h1.trans (perm_get_cons_eraseIdx (x :: xs) _ hi).symm.subperm

/-- When the requested size does not exceed the pool, the drawn sample has
exactly that size. -/
theorem sampleAux_length (g : Nat → Nat) (k : Nat) :
    ∀ (pool : List α) (step : Nat), k ≤ pool.length →
      (sampleAux g step pool k).length = k := by
  induction k with
  | zero => intro pool step _; rfl
  | succ j ih =>
    intro pool step hk
    cases pool with
    | nil => simp at hk
    | cons x xs =>
      have hi : g step % (xs.length + 1) < (x :: xs).length := by
        simp only [List.length_cons]
        exact Nat.mod_lt _ (Nat.succ_pos _)
      have hlen :
          ((x :: xs).eraseIdx (g step % (xs.length + 1))).length
            = xs.length := by
        have h1 := List.length_eraseIdx_add_one hi
        simp only [List.length_cons] at h1
        omega
      have hk' : j ≤ xs.length := by
        simp only [List.length_cons] at hk
        omega
      rw [sampleAux]
      simp only [List.length_cons]
      have h2 := ih ((x :: xs).eraseIdx (g step % (xs.length + 1))) (step + 1)
        (by rw [hlen]; exact hk')
      omega

/-- A subpermutation of a duplicate-free list is duplicate-free. -/
theorem subperm_nodup {l₁ l₂ : List α} (h : List.Subperm l₁ l₂)
    (hn : l₂.Nodup) : l₁.Nodup := by
  obtain ⟨l, hp, hs⟩ := h
  exact hp.nodup_iff.mp (hn.sublist hs)

/-- C1: for every format_instructions string, `setup_prompt` called with
`k = 0` returns a chat prompt template containing exactly two message
slots — a system message followed by the final human instruction — with no
few-shot block between them (for any examples, strategy, cache path, rng
and world, which are all left untouched). -/
theorem setup_prompt_k0_two_slots (w : World) (examples : List Example)
    (format_instructions : String) (few_shot_by : String)
    (cache : Option (List String)) (g : Nat → Nat) :
    setup_prompt w examples format_instructions few_shot_by 0 cache g =
      (w, .ok
        { messages := [ChatMessageItem.systemTemplate CHAT_SYSTEM_MESSAGE,
                       ChatMessageItem.humanTemplate SUFFIX],
          input_variables := ["intention"],
          partial_variables := [("format_instructions", format_instructions)] }) := by
  rfl

/-- C2: for every `k > 0`, `setup_prompt` called with an empty example list
fails with an assertion error rather than returning a template, for any
strategy, cache path, rng and world. -/
theorem setup_prompt_pos_k_empty_examples_asserts (w : World)
    (format_instructions : String) (few_shot_by : String) (k : Int)
    (cache : Option (List String)) (g : Nat → Nat) (hk : 0 < k) :
    setup_prompt w [] format_instructions few_shot_by k cache g =
      (w, .error (.assertionError "len(examples) > 0")) := by
  simp only [setup_prompt]
  rw [if_pos hk]
  rfl

/-- C2 witness: the assertion fires at the concrete input `k = 5`. -/
theorem setup_prompt_pos_k_empty_examples_asserts_witness :
    setup_prompt ⟨[], []⟩ [] "fmt" "random" 5 none (fun n => n) =
      (⟨[], []⟩, .error (.assertionError "len(examples) > 0")) :=
  setup_prompt_pos_k_empty_examples_asserts ⟨[], []⟩ "fmt" "random" 5 none
    (fun n => n) (by decide)

/-- C3: for every example list and every `k`, the similarity strategy
without a cache path fails with an assertion error, and the world — in
particular its event log, which would record building the embedding
provider or computing embeddings — is returned unchanged: the failure
happens before any embedding work. -/
theorem similarity_without_cache_asserts_unchanged_world (w : World)
    (examples : List ExampleDict) (k : Int) (g : Nat → Nat) :
    setup_examples_or_its_selector w examples "similarity" k none g =
      (w, .error (.assertionError
        "embeddings_cache_name is required for retrieval based on sentence similarity between the extracted embeddings.")) := by
  rfl

/-- C4: the random selector's sampling call on a stored example list of
length `n` with `0 ≤ k`: when `k ≤ n` it returns exactly `k` elements, all
drawn from the stored list without replacement (a subpermutation, hence
duplicate-free whenever the stored list is), and when `k > n` it fails
with a ValueError — no silent truncation. -/
theorem random_selector_select_examples_spec {α : Type}
    (s : RandomExampleSelector α) (g : Nat → Nat) (args1 : List String)
    (hk : 0 ≤ s.k) :
    (s.k.toNat ≤ s.examples.length →
      ∃ l, s.select_examples g args1 = .ok l ∧
        l.length = s.k.toNat ∧ (∀ x ∈ l, x ∈ s.examples) ∧
        List.Subperm l s.examples ∧ (s.examples.Nodup → l.Nodup)) ∧
    (s.examples.length < s.k.toNat →
      s.select_examples g args1 =
        .error (.valueError "Sample larger than population or is negative")) := by
  constructor
  · intro hn
    refine ⟨sampleAux g 0 s.examples s.k.toNat, ?_, ?_, ?_, ?_, ?_⟩
    · simp only [RandomExampleSelector.select_examples, randomSample]
      rw [if_pos ⟨hk, hn⟩]
    · exact sampleAux_length g s.k.toNat s.examples 0 hn
    · intro x hx
      exact (sampleAux_subperm g s.k.toNat s.examples 0).subset hx
    · exact sampleAux_subperm g s.k.toNat s.examples 0
    · intro hnd
      exact subperm_nodup (sampleAux_subperm g s.k.toNat s.examples 0) hnd
  · intro hn
    simp only [RandomExampleSelector.select_examples, randomSample]
    rw [if_neg (by omega)]

/-- C4 witness: a selector over `[0, 1, 2]` with `k = 2`. -/
theorem random_selector_select_examples_spec_witness :
    ∃ l, (RandomExampleSelector.mk [0, 1, 2] 2 :
        RandomExampleSelector Nat).select_examples (fun n => n) [] = .ok l ∧
      l.length = (2 : Int).toNat ∧
      (∀ x ∈ l, x ∈ (RandomExampleSelector.mk [0, 1, 2] 2 :
        RandomExampleSelector Nat).examples) ∧
      List.Subperm l [0, 1, 2] ∧
      (([0, 1, 2] : List Nat).Nodup → l.Nodup) :=
  (random_selector_select_examples_spec ⟨[0, 1, 2], 2⟩ (fun n => n) []
    (by decide)).1 (by decide)

/-- C5: the fixed strategy draws one sample of size `k` without
replacement at setup time and returns it as a static example list: the
result has exactly `k` elements, all drawn from the input set without
replacement (duplicate-free whenever the input is), and any two calls with
the same example list, `k` and rng-stream state return the very same
subset, whatever the rest of the world looks like. -/
theorem fixed_strategy_setup_spec (w : World) (examples : List ExampleDict)
    (k : Int) (cache : Option (List String)) (g : Nat → Nat)
    (hk : 0 ≤ k) (hn : k.toNat ≤ examples.length) :
    ∃ l, setup_examples_or_its_selector w examples "fixed" k cache g =
        (w, .ok (.fixedExamples l)) ∧
      l.length = k.toNat ∧ (∀ x ∈ l, x ∈ examples) ∧
      List.Subperm l examples ∧ (examples.Nodup → l.Nodup) ∧
      (∀ w' : World,
        (setup_examples_or_its_selector w' examples "fixed" k cache g).2 =
          .ok (.fixedExamples l)) := by
  have hbranch : ∀ w' : World,
      setup_examples_or_its_selector w' examples "fixed" k cache g =
        match randomSample g examples k with
        | .ok sampled => (w', .ok (.fixedExamples sampled))
        | .error e => (w', .error e) := fun _ => rfl
  have hsample : randomSample g examples k =
      .ok (sampleAux g 0 examples k.toNat) := by
    simp only [randomSample]
    rw [if_pos ⟨hk, hn⟩]
  refine ⟨sampleAux g 0 examples k.toNat, ?_, ?_, ?_, ?_, ?_, ?_⟩
  · rw [hbranch w, hsample]
  · exact sampleAux_length g k.toNat examples 0 hn
  · intro x hx
    exact (sampleAux_subperm g k.toNat examples 0).subset hx
  · exact sampleAux_subperm g k.toNat examples 0
  · intro hnd
    exact subperm_nodup (sampleAux_subperm g k.toNat examples 0) hnd
  · intro w'
    rw [hbranch w', hsample]

/-- C5 witness: two examples, `k = 1`. -/
theorem fixed_strategy_setup_spec_witness :
    ∃ l, setup_examples_or_its_selector ⟨[], []⟩
        [⟨"a", some "d"⟩, ⟨"b", none⟩] "fixed" 1 none (fun n => n) =
        (⟨[], []⟩, .ok (.fixedExamples l)) ∧
      l.length = (1 : Int).toNat ∧
      (∀ x ∈ l, x ∈ ([⟨"a", some "d"⟩, ⟨"b", none⟩] : List ExampleDict)) ∧
      List.Subperm l [⟨"a", some "d"⟩, ⟨"b", none⟩] ∧
      (([⟨"a", some "d"⟩, ⟨"b", none⟩] : List ExampleDict).Nodup →
        l.Nodup) ∧
      (∀ w' : World,
        (setup_examples_or_its_selector w'
          [⟨"a", some "d"⟩, ⟨"b", none⟩] "fixed" 1 none (fun n => n)).2 =
          .ok (.fixedExamples l)) :=
  fixed_strategy_setup_spec ⟨[], []⟩ [⟨"a", some "d"⟩, ⟨"b", none⟩] 1 none
    (fun n => n) (by decide) (by decide)

/-- C6: `setup_model` selects its branch by the first non-null argument in
the fixed priority order local model identifier, hosted repository
identifier, hosted deployment name — so when more than one is supplied the
earlier one wins — and when all three are null it fails with a
NotImplementedError. -/
theorem setup_model_first_non_null_priority
    (model_id repo_id azure_openai_model_name : Option String)
    (env_api_version : Option String) :
    (∀ m, model_id = some m →
      setup_model model_id repo_id azure_openai_model_name env_api_version =
        .ok (.huggingFacePipeline m 64)) ∧
    (model_id = none → ∀ r, repo_id = some r →
      setup_model model_id repo_id azure_openai_model_name env_api_version =
        .ok (.huggingFaceHub r 0 64)) ∧
    (model_id = none → repo_id = none →
      ∀ a, azure_openai_model_name = some a →
      setup_model model_id repo_id azure_openai_model_name env_api_version =
        .ok (.azureChatOpenAI a a env_api_version)) ∧
    (model_id = none → repo_id = none → azure_openai_model_name = none →
      setup_model model_id repo_id azure_openai_model_name env_api_version =
        .error (.notImplementedError "No model is specified.")) := by
  refine ⟨?_, ?_, ?_, ?_⟩
  · intro m hm; subst hm; rfl
  · intro h1 r hr; subst h1; subst hr; rfl
  · intro h1 h2 a ha; subst h1; subst h2; subst ha; rfl
  · intro h1 h2 h3; subst h1; subst h2; subst h3; rfl

/-- C6 witness: with all three identifiers supplied, the local model
identifier wins. -/
theorem setup_model_first_non_null_priority_witness :
    setup_model (some "m") (some "r") (some "a") none =
      .ok (.huggingFacePipeline "m" 64) :=
  (setup_model_first_non_null_priority (some "m") (some "r") (some "a")
    none).1 "m" rfl

/-- C7: for every strategy string other than "similarity", "random" and
"fixed", `setup_examples_or_its_selector` fails with a NotImplementedError
and the world is unchanged — no selector and no example list is
produced. -/
theorem unknown_strategy_not_implemented (w : World)
    (examples : List ExampleDict) (few_shot_by : String) (k : Int)
    (cache : Option (List String)) (g : Nat → Nat)
    (h1 : few_shot_by ≠ "similarity") (h2 : few_shot_by ≠ "random")
    (h3 : few_shot_by ≠ "fixed") :
    setup_examples_or_its_selector w examples few_shot_by k cache g =
      (w, .error (.notImplementedError "")) := by
  simp only [setup_examples_or_its_selector]
  rw [if_neg h1, if_neg h2, if_neg h3]

/-- C7 witness: the strategy "mmr" is rejected. -/
theorem unknown_strategy_not_implemented_witness :
    setup_examples_or_its_selector ⟨[], []⟩ [] "mmr" 5 none (fun n => n) =
      (⟨[], []⟩, .error (.notImplementedError "")) :=
  unknown_strategy_not_implemented ⟨[], []⟩ [] "mmr" 5 none (fun n => n)
    (by decide) (by decide) (by decide)

/-- C8: calling `initialize_embeddings` with a non-null cache path whose
parent directory does not yet exist succeeds and afterwards the whole
parent directory chain exists; and when the parent directory already
exists it also succeeds, leaving the filesystem unchanged (idempotent
create, no error). -/
theorem initialize_embeddings_parent_dir_spec (w : World)
    (path : List String) :
    (dirExists w.fs path = false → dirExists w.fs path.dropLast = false →
      (initialize_embeddings w (some path)).2 =
        .ok (.cached "hfemb_default" path) ∧
      ∀ q ∈ path.dropLast.inits,
        dirExists (initialize_embeddings w (some path)).1.fs q = true) ∧
    (dirExists w.fs path.dropLast = true →
      (initialize_embeddings w (some path)).2 =
        .ok (.cached "hfemb_default" path) ∧
      (initialize_embeddings w (some path)).1.fs = w.fs) := by
  constructor
  · intro h1 h2
    have hmk : mkdir w.fs path.dropLast true true =
        .ok (path.dropLast.inits.filter (fun q => !q.isEmpty) ++ w.fs) := by
      simp only [mkdir, h2]
      rfl
    constructor
    · simp [initialize_embeddings, h1, h2, hmk]
    · intro q hq
      simp only [initialize_embeddings, h1, h2, hmk,
        Bool.false_eq_true, if_false]
      by_cases hqe : q.isEmpty
      · simp [dirExists, hqe]
      · simp only [dirExists, hqe, Bool.false_or]
        have hqmem :
            q ∈ path.dropLast.inits.filter (fun r => !r.isEmpty) ++ w.fs := by
          refine List.mem_append_left _ ?_
          exact List.mem_filter.mpr ⟨hq, by simp [hqe]⟩
        exact List.elem_eq_true_of_mem hqmem
  · intro h2
    by_cases h1 : dirExists w.fs path = true
    · constructor <;> simp [initialize_embeddings, h1]
    · have h1' : dirExists w.fs path = false := by
        revert h1
        cases dirExists w.fs path <;> simp
      constructor <;> simp [initialize_embeddings, h1', h2]

/-- C8 witness: creating the cache at path a/b in an empty filesystem
creates the parent chain. -/
theorem initialize_embeddings_parent_dir_spec_witness :
    ((initialize_embeddings ⟨[], []⟩ (some ["a", "b"])).2 =
      .ok (.cached "hfemb_default" ["a", "b"]) ∧
     ∀ q ∈ (["a", "b"] : List String).dropLast.inits,
       dirExists (initialize_embeddings ⟨[], []⟩
         (some ["a", "b"])).1.fs q = true) :=
  (initialize_embeddings_parent_dir_spec ⟨[], []⟩ ["a", "b"]).1
    (by decide) (by decide)

/-- C9: for every `k ≤ 0`, including negative `k`, `setup_prompt` succeeds
and returns the two-slot template with no few-shot block — even when the
example list is empty and whatever the strategy and cache path are: the
non-empty-examples assertion and the example-selection dispatch are only
reached when `k > 0`, as the result does not depend on examples, strategy
or cache and the world is untouched. -/
theorem setup_prompt_nonpos_k_two_slots (w : World)
    (examples : List Example) (format_instructions : String)
    (few_shot_by : String) (k : Int) (cache : Option (List String))
    (g : Nat → Nat) (hk : k ≤ 0) :
    setup_prompt w examples format_instructions few_shot_by k cache g =
      (w, .ok
        { messages := [ChatMessageItem.systemTemplate CHAT_SYSTEM_MESSAGE,
                       ChatMessageItem.humanTemplate SUFFIX],
          input_variables := ["intention"],
          partial_variables := [("format_instructions", format_instructions)] }) := by
  unfold setup_prompt
  split
  · exact absurd (by assumption) (by omega)
  · rfl

/-- C9 witness: `k = -3` with an empty example list succeeds. -/
theorem setup_prompt_nonpos_k_two_slots_witness :
    setup_prompt ⟨[], []⟩ [] "fmt" "random" (-3) none (fun n => n) =
      (⟨[], []⟩, .ok
        { messages := [ChatMessageItem.systemTemplate CHAT_SYSTEM_MESSAGE,
                       ChatMessageItem.humanTemplate SUFFIX],
          input_variables := ["intention"],
          partial_variables := [("format_instructions", "fmt")] }) :=
  setup_prompt_nonpos_k_two_slots ⟨[], []⟩ [] "fmt" "random" (-3) none
    (fun n => n) (by decide)

/-- C10: the random selector's sampling call ignores its query arguments
entirely: for a fixed selector state and a fixed rng-stream state, two
invocations with different query arguments return the same result. -/
theorem random_selector_ignores_query_args {α : Type}
    (s : RandomExampleSelector α) (g : Nat → Nat)
    (args1 args2 : List String) :
    s.select_examples g args1 = s.select_examples g args2 := rfl
